import Mathlib

/- Shallow embedding of the session-multiplexing and command-routing engine of the
   n8n-install Telegram bot (tg-bot/app): the host command gateway
   (services/host_executor.py), the flag parser and agent exec wrappers, the
   session registry operations and the message handlers of routers/claude_cli.py
   and routers/cursor_cli.py.  Python strings are modelled as Lean String
   (sequences of code points, matching Python slicing and length); machine-level
   side effects (Docker client creation, container runs, Telegram answers) are
   recorded as explicit effect lists, and the outcome of each external call is a
   parameter of the embedded function. -/

/-- the single-quote character (code point 39). -/
def sqc : Char := Char.ofNat 39

/-- single-quote as a one-character string, used to build the messages of the
source without putting a quote character in a Lean literal. -/
def sqS : String := String.mk [sqc]

/-- the double-quote character (code point 34). -/
def dqc : Char := Char.ofNat 34

/-- double-quote as a one-character string. -/
def dqs : String := String.mk [dqc]

/-- the backslash character (code point 92). -/
def bsc : Char := Char.ofNat 92

/-- the opening curly bracket character (code point 123). -/
def obrace : Char := Char.ofNat 123

/-- the closing curly bracket character (code point 125). -/
def cbrace : Char := Char.ofNat 125

/-- whitespace characters removed by Python str.strip() for ASCII text:
space, tab, newline, carriage return, vertical tab, form feed. -/
def isPySpace (c : Char) : Bool :=
  c = ' ' || c = '\t' || c = '\n' || c = '\r' || c = Char.ofNat 11 || c = Char.ofNat 12

/-- right strip, as the reversal trick over dropWhile. -/
def pyStripR (l : List Char) : List Char :=
  (l.reverse.dropWhile isPySpace).reverse

/-- Python str.strip() on the character list: strip the right end, then the left. -/
def pyStrip (l : List Char) : List Char :=
  (pyStripR l).dropWhile isPySpace

/-- Python str.strip() on strings. -/
def pyStripStr (s : String) : String := String.mk (pyStrip s.data)

/-- Python str.lower()/casefold() restricted to ASCII letters (the only case the
bot compares: "/delete", marker tokens, command keywords). -/
def pyLower (s : String) : String := String.mk (s.data.map Char.toLower)

/-- Python slicing s[:n] (first n code points). -/
def pyTake (n : Nat) (s : String) : String := String.mk (s.data.take n)

/-- Python slicing s[n:] (drop the first n code points). -/
def pyDrop (n : Nat) (s : String) : String := String.mk (s.data.drop n)

/- ------------------------------------------------------------------ -/
/- shlex.split (POSIX mode, whitespace_split=True), the tokenizer used by
   services/host_executor.py to cut a command line into words.  Raises
   "No closing quotation" on an unterminated quote and "No escaped character"
   on a trailing escape, exactly the two ValueError messages of the stdlib. -/

/-- whitespace recognised by shlex (' ', tab, CR, LF). -/
def isShWs (c : Char) : Bool :=
  c = ' ' || c = '\t' || c = '\r' || c = '\n'

/-- lexer modes of the shlex state machine: outside quotes, inside single
quotes, inside double quotes, and the two pending-escape modes. -/
inductive ShMode
  | norm
  | single
  | double
  | normEsc
  | doubleEsc
deriving DecidableEq

/-- one-character-at-a-time shlex state machine.  `inTok` records whether a
token has been started (so that a quoted empty string still yields a token),
`cur` is the current token reversed, `acc` the finished tokens. -/
def shlexCore : List Char → ShMode → Bool → List Char → List String → Except String (List String)
  | [], .norm, inTok, cur, acc =>
      .ok (if inTok then acc ++ [String.mk cur.reverse] else acc)
  | [], .single, _, _, _ => .error ("No closing quotation")
  | [], .double, _, _, _ => .error ("No closing quotation")
  | [], .normEsc, _, _, _ => .error ("No escaped character")
  | [], .doubleEsc, _, _, _ => .error ("No escaped character")
  | c :: cs, .norm, inTok, cur, acc =>
      if isShWs c then
        if inTok then shlexCore cs .norm false [] (acc ++ [String.mk cur.reverse])
        else shlexCore cs .norm false [] acc
      else if c = sqc then shlexCore cs .single true cur acc
      else if c = dqc then shlexCore cs .double true cur acc
      else if c = bsc then shlexCore cs .normEsc true cur acc
      else shlexCore cs .norm true (c :: cur) acc
  | c :: cs, .normEsc, _, cur, acc => shlexCore cs .norm true (c :: cur) acc
  | c :: cs, .single, _, cur, acc =>
      if c = sqc then shlexCore cs .norm true cur acc
      else shlexCore cs .single true (c :: cur) acc
  | c :: cs, .double, _, cur, acc =>
      if c = dqc then shlexCore cs .norm true cur acc
      else if c = bsc then shlexCore cs .doubleEsc true cur acc
      else shlexCore cs .double true (c :: cur) acc
  | c :: cs, .doubleEsc, _, cur, acc =>
      if c = bsc || c = dqc then shlexCore cs .double true (c :: cur) acc
      else shlexCore cs .double true (c :: bsc :: cur) acc

/-- shlex.split of a command line: Except.error models the ValueError raised on
malformed input (unbalanced quote, trailing escape). -/
def shlexSplit (s : String) : Except String (List String) :=
  shlexCore s.data .norm false [] []

/- ------------------------------------------------------------------ -/
/- services/host_executor.py -/

/-- ALLOWED_HOST_COMMANDS, the fixed allow-list (source order of the set
literal). -/
def ALLOWED_HOST_COMMANDS : List String :=
  ["ping", "traceroute", "mtr", "netstat", "ss", "ip",
   "curl", "wget", "nc", "nmap", "dig", "host", "nslookup",
   "df", "free", "top", "htop", "ps", "uptime", "uname",
   "ls", "cat", "grep", "find", "du", "stat"]

/-- NETWORK_COMMANDS, the commands that request host networking. -/
def NETWORK_COMMANDS : List String :=
  ["ping", "traceroute", "mtr", "curl", "wget", "nc", "nmap", "dig", "host", "nslookup"]

/-- insertion into a sorted list of strings, for Python sorted(). -/
def insertSorted (x : String) : List String → List String
  | [] => [x]
  | y :: ys => if x < y then x :: y :: ys else y :: insertSorted x ys

/-- Python sorted() on a list of strings. -/
def sortStrings (l : List String) : List String := l.foldr insertSorted []

/-- ", ".join(...) -/
def joinComma : List String → String
  | [] => ""
  | [x] => x
  | x :: y :: ys => x ++ (", ") ++ joinComma (y :: ys)

/-- " ".join(...) -/
def joinSpace : List String → String
  | [] => ""
  | [x] => x
  | x :: y :: ys => x ++ (" ") ++ joinSpace (y :: ys)

/-- characters shlex.quote considers safe (ASCII word characters plus at, percent, plus, equals, colon, comma, dot, slash, dash). -/
def shlexQuoteSafe (c : Char) : Bool :=
  (('a' ≤ c && c ≤ 'z') || ('A' ≤ c && c ≤ 'Z') || ('0' ≤ c && c ≤ '9')
   || c = '_' || c = '@' || c = '%' || c = '+' || c = '=' || c = ':'
   || c = ',' || c = '.' || c = '/' || c = '-')

/-- shlex.quote: empty string quotes to two single quotes; safe strings pass
through; otherwise wrap in single quotes, replacing each embedded single quote
by the quote-double-quote dance of the stdlib. -/
def shlexQuote (s : String) : String :=
  if s = "" then sqS ++ sqS
  else if s.data.all shlexQuoteSafe then s
  else sqS ++ String.mk (s.data.flatMap
    (fun c => if c = sqc then [sqc, dqc, sqc, dqc, sqc] else [c])) ++ sqS

/-- outcome of the one docker containers.run call of execute_host_command:
success with captured bytes, asyncio timeout, ContainerError (optional stderr
and the str of the exception), ImageNotFound, or another exception. -/
inductive RunOutcome
  | ok (output : String)
  | timedOut
  | containerError (stderr : Option String) (msg : String)
  | imageNotFound
  | otherExn (msg : String)
deriving DecidableEq

/-- effects of execute_host_command on the sandbox runtime, in order:
docker.from_env() and the containers.run call. -/
inductive HostEffect
  | clientCreated
  | containerRun (image : String) (cmdParts : List String) (hostNetwork : Bool) (privileged : Bool)
deriving DecidableEq

/-- the rejection message of execute_host_command for a command outside the
allow-list. -/
def notAllowedMsg (command : String) : String :=
  ("Error: Command ") ++ sqS ++ command ++ sqS ++
  (" is not allowed. Allowed commands: ") ++ joinComma (sortStrings ALLOWED_HOST_COMMANDS)

/-- the sh -c line built for ping/traceroute/mtr: install the package, then run
the tool on the shlex-quoted arguments. -/
def apkShell (pkg tool : String) (args : List String) : List String :=
  ["sh", "-c",
   ("apk add --no-cache ") ++ pkg ++ (" >/dev/null 2>&1 && ") ++ tool ++ (" ")
     ++ joinSpace (args.map shlexQuote)]

/-- execute_host_command: validate against the allow-list, then (only in the
allowed case) create a Docker client and run the command in a throwaway
container.  The behaviour of the runtime is the `rt` parameter; the returned effect
list records the client creation and the container run. -/
def execute_host_command (rt : RunOutcome) (command : String) (args : List String)
    (use_host_network : Bool) (timeout : Nat) : (String × Bool) × List HostEffect :=
  if !(ALLOWED_HOST_COMMANDS.contains command) then
    ((notAllowedMsg command, false), [])
  else
    let needs_host_network := use_host_network && NETWORK_COMMANDS.contains command
    let image := ("alpine:latest")
    let cmd_parts :=
      if command = ("ping") then apkShell ("iputils") ("ping") args
      else if command = ("traceroute") then apkShell ("traceroute") ("traceroute") args
      else if command = ("mtr") then apkShell ("mtr") ("mtr") args
      else command :: args
    let fx := [HostEffect.clientCreated,
               HostEffect.containerRun image cmd_parts needs_host_network needs_host_network]
    match rt with
    | .ok out => ((out, true), fx)
    | .timedOut =>
        ((("Error: Command timed out after ") ++ toString timeout ++ (" seconds"), false), fx)
    | .containerError stderrOpt msg =>
        ((("Error executing command: ") ++ (match stderrOpt with
            | some e => e
            | none => msg), false), fx)
    | .imageNotFound =>
        ((("Error: Docker image not found. Please ensure Docker images are available."), false), fx)
    | .otherExn m => ((("Error: ") ++ m, false), fx)

/-- execute_host_command_simple: shlex-split the command line (a ValueError is
caught and reported), reject the empty command line, otherwise delegate to
execute_host_command with the default use_host_network=True, timeout=30. -/
def execute_host_command_simple (rt : RunOutcome) (command_line : String) :
    (String × Bool) × List HostEffect :=
  match shlexSplit command_line with
  | .error e => ((("Error parsing command: ") ++ e, false), [])
  | .ok [] => ((("Error: Empty command"), false), [])
  | .ok (c :: rest) => execute_host_command rt c rest true 30

/-- a command line that execute_host_command_simple rejects before touching the
runtime: it tokenizes to the empty list, or its leading token is outside the
allow-list. -/
def rejectable (s : String) : Bool :=
  match shlexSplit s with
  | .ok [] => true
  | .ok (t :: _) => !(ALLOWED_HOST_COMMANDS.contains t)
  | .error _ => false

/- ------------------------------------------------------------------ -/
/- parse_flags_from_query (identical in routers/claude_cli.py and
   routers/cursor_cli.py): re.search of the case-insensitive marker with
   DOTALL, group(1) stripped as the flags, the text before the match stripped
   as the clean query.  The leftmost regex match starts at the first
   case-insensitive occurrence of the marker; the whitespace the regex engine
   may attribute to the marker side is erased by the strip on both parts, so
   splitting at the first marker occurrence and stripping both sides is the
   exact result.  Case-insensitivity is modelled at ASCII granularity. -/

/-- the marker token of the flag parser, lower-case. -/
def flagsMarker : List Char := ['#', 'f', 'l', 'a', 'g', 's']

/-- does the marker occur (case-insensitively) at the head of the list? -/
def markerAt (l : List Char) : Bool := (l.take 6).map Char.toLower == flagsMarker

/-- split at the first case-insensitive occurrence of the marker: the text
before it and the text after its six characters, or none when the marker does
not occur. -/
def splitAtMarker : List Char → Option (List Char × List Char)
  | [] => none
  | c :: cs =>
    if markerAt (c :: cs) then some ([], (c :: cs).drop 6)
    else
      match splitAtMarker cs with
      | some (pre, post) => some (c :: pre, post)
      | none => none

/-- parse_flags_from_query: with a marker, (strip of the prefix, strip of the
suffix or none when empty); with no marker, the query is returned unchanged
with no flags. -/
def parse_flags_from_query (q : String) : String × Option String :=
  match splitAtMarker q.data with
  | some (pre, post) =>
    let fl := pyStrip post
    (String.mk (pyStrip pre), if fl = [] then none else some (String.mk fl))
  | none => (q, none)

/- ------------------------------------------------------------------ -/
/- the docker exec boundary of routers/claude_cli.py and routers/cursor_cli.py.
   Each wrapper makes exactly one exec_run call inside a try/except that
   catches docker.errors.NotFound, docker.errors.APIError and any other
   exception; the outcome of the call (or which exception it raised) is the
   DockerExecOutcome parameter.  The command line handed to exec_run is built
   by the *_base_cmd functions below. -/

/-- outcome of one container.exec_run call: the container was missing, the
Docker API errored, another exception was raised, or the process ran and
produced an exit code with combined stdout/stderr. -/
inductive DockerExecOutcome
  | notFound
  | apiError (msg : String)
  | otherExn (msg : String)
  | run (exitCode : Nat) (output : String)
deriving DecidableEq

/-- query.replace of a single quote by the quote-backslash-quote-quote shell
idiom, as in execute_claude_command / execute_cursor_command. -/
def cli_query_escape (q : String) : String :=
  String.mk (q.data.flatMap (fun c => if c = sqc then [sqc, bsc, sqc, sqc] else [c]))

/-- the shell line of execute_claude_command: echo the escaped query into
claude chat -r UUID --print, with the stripped flags spliced in when the flags
string is truthy and strips to something non-empty. -/
def claude_base_cmd (session_uuid q : String) (flags : Option String) : String :=
  let qe := cli_query_escape q
  let base := ("echo ") ++ sqS ++ qe ++ sqS ++ (" | claude chat -r ")
      ++ shlexQuote session_uuid ++ (" --print --permission-mode bypassPermissions")
  match flags with
  | some fl =>
      if fl ≠ "" && pyStripStr fl ≠ "" then
        ("echo ") ++ sqS ++ qe ++ sqS ++ (" | claude chat -r ")
          ++ shlexQuote session_uuid ++ (" --print ") ++ pyStripStr fl
          ++ (" --permission-mode bypassPermissions")
      else base
  | none => base

/-- execute_claude_command, the post-processing of the one exec_run call: exit
code zero returns the decoded output with success; a non-zero exit returns the
full decoded output behind an error banner (no truncation); the three caught
exception kinds map to fixed error strings.  Every path returns a pair — the
function never raises. -/
def execute_claude_command (o : DockerExecOutcome) : String × Bool :=
  match o with
  | .run 0 out => (out, true)
  | .run (_ + 1) err => (("Ошибка выполнения команды:\n") ++ err, false)
  | .notFound =>
      (("Ошибка: контейнер ") ++ sqS ++ ("claude-code-console") ++ sqS ++ (" не найден"), false)
  | .apiError m => (("Ошибка Docker API: ") ++ m, false)
  | .otherExn m => (("Ошибка выполнения команды: ") ++ m, false)

/-- json.loads restricted to string-valued objects, as a parameter: the
wrappers only ever read string fields out of the decoded object, and the
theorems below hold for every decoder. -/
def JsonLoads := String → Except Unit (List (String × String))

/-- index of the last occurrence of a character (Python str.rfind, as an
Option). -/
def lastIdxOf (c : Char) (l : List Char) : Option Nat :=
  (l.reverse.findIdx? (fun d => d = c)).map (fun i => l.length - 1 - i)

/-- the brace scan of the wrappers: output.find of an opening curly bracket,
output.rfind of a closing one, and the slice between them when the span is
non-empty. -/
def extractJson (out : String) : Option String :=
  match out.data.findIdx? (fun c => c = obrace), lastIdxOf cbrace out.data with
  | some i, some j =>
      if i < j + 1 then some (String.mk ((out.data.drop i).take (j + 1 - i))) else none
  | some _, none => none
  | none, _ => none

/-- dict.get under Python truthiness: a missing key or an empty-string value
is falsy. -/
def dictGetTruthy (d : List (String × String)) (k : String) : Option String :=
  match d.lookup k with
  | some v => if v = "" then none else some v
  | none => none

/-- the chat id extraction of execute_cursor_command: brace-scan the output,
decode it, and take the first truthy field among chat_id, chatId, id; any
failure (no braces, decode error, no truthy field) yields none, mirroring the
swallowed exception of the source. -/
def cursor_extract_chat_id (jl : JsonLoads) (out : String) : Option String :=
  match extractJson out with
  | some js =>
      match jl js with
      | .ok d =>
          match dictGetTruthy d ("chat_id") with
          | some v => some v
          | none =>
              match dictGetTruthy d ("chatId") with
              | some v => some v
              | none => dictGetTruthy d ("id")
      | .error _ => none
  | none => none

/-- Python truthiness of an optional string. -/
def truthyOpt : Option String → Bool
  | none => false
  | some s => s ≠ ""

/-- the fixed warning execute_cursor_command returns when the process exits
zero with empty output. -/
def cursorEmptyWarning : String :=
  ("⚠️ Cursor-agent выполнен, но ответ пуст.\n\nЭто известная проблема с cursor-agent в headless режиме. Возможные причины:\n• API ключ не настроен корректно\n• Cursor-agent требует интерактивной авторизации\n• Версия cursor-agent имеет проблемы с headless режимом\n\nПопробуйте:\n1. Проверить API ключ в .env файле\n2. Выполнить авторизацию через `cursor-agent login`\n3. Обновить cursor-agent до последней версии")

/-- the shell line of execute_cursor_command: cursor-agent -p with the escaped
query, --resume when a truthy chat id is known, and the stripped flags
appended when truthy. -/
def cursor_base_cmd (session_uuid : Option String) (q : String) (flags : Option String) : String :=
  let qe := cli_query_escape q
  let core :=
    if truthyOpt session_uuid then
      ("cursor-agent --api-key ") ++ dqs ++ ("$CURSOR_API_KEY") ++ dqs
        ++ (" -p --output-format text ") ++ sqS ++ qe ++ sqS ++ (" --resume ")
        ++ shlexQuote (match session_uuid with
            | some v => v
            | none => "")
    else
      ("cursor-agent --api-key ") ++ dqs ++ ("$CURSOR_API_KEY") ++ dqs
        ++ (" -p --output-format text ") ++ sqS ++ qe ++ sqS
  match flags with
  | some fl => if fl ≠ "" && pyStripStr fl ≠ "" then core ++ (" ") ++ pyStripStr fl else core
  | none => core

/-- execute_cursor_command, the post-processing of the one exec_run call.
Exit code zero with blank output returns the fixed warning with success=false;
exit code zero otherwise returns the output with success, extracting a chat id
only when no truthy session uuid was passed; a non-zero exit returns an error
banner carrying the output truncated to 1000 characters; the caught exception
kinds map to fixed error strings.  Every path returns a triple — the function
never raises. -/
def execute_cursor_command (jl : JsonLoads) (o : DockerExecOutcome)
    (session_uuid : Option String) : String × Bool × Option String :=
  match o with
  | .run 0 out =>
      if out = "" || pyStripStr out = "" then (cursorEmptyWarning, false, none)
      else
        let chatId := if truthyOpt session_uuid then none else cursor_extract_chat_id jl out
        (out, true, chatId)
  | .run (ec + 1) out =>
      let errMsg := if out = "" then ("Команда завершилась с ошибкой без вывода") else out
      ((("Ошибка выполнения команды (код ") ++ toString (ec + 1) ++ ("):\n") ++ pyTake 1000 errMsg),
        false, none)
  | .notFound =>
      (("Ошибка: контейнер ") ++ sqS ++ ("cursor-code-console") ++ sqS ++ (" не найден"), false, none)
  | .apiError m => (("Ошибка Docker API: ") ++ m, false, none)
  | .otherExn m => (("Ошибка выполнения команды: ") ++ m, false, none)

/- ------------------------------------------------------------------ -/
/- the session registry (app/models.py): ClaudeCLISession / CursorCLISession
   rows keyed by an autoincrement id, carrying (user_id, session_name, uuid),
   and ClaudeCLIMessage / CursorCLIMessage rows whose session reference is
   nullable with ondelete=SET NULL.  The two table pairs have identical
   columns, so one Lean shape serves both; each handler below acts on the
   table pair of its own agent kind. -/

/-- a session row: ClaudeCLISession / CursorCLISession. -/
structure CLISession where
  id : Nat
  user_id : Nat
  session_name : String
  uuid : Option String
deriving DecidableEq

/-- a message row: ClaudeCLIMessage / CursorCLIMessage.  The created_at
column is omitted: no handler reads it. -/
structure CLIMessage where
  session_id : Option Nat
  user_id : Nat
  query : String
  response : Option String
  flags_used : Option String
deriving DecidableEq

/-- the tables of one agent kind. -/
structure CLIDB where
  sessions : List CLISession
  messages : List CLIMessage
deriving DecidableEq

/-- get_or_create_session: the select by (user_id, session_name), returning
the unique matching row or none. -/
def findSession (db : CLIDB) (u : Nat) (n : String) : Option CLISession :=
  db.sessions.find? (fun s => s.user_id == u && s.session_name == n)

/-- the autoincrement primary key for the next inserted session row. -/
def nextSessionId (db : CLIDB) : Nat :=
  db.sessions.foldr (fun s m => max s.id m) 0 + 1

/-- save_message: append one message row. -/
def saveMessage (db : CLIDB) (sid : Option Nat) (u : Nat) (q : String)
    (r : Option String) (fl : Option String) : CLIDB :=
  { db with messages := db.messages ++ [⟨sid, u, q, r, fl⟩] }

/-- the JSON post-processing of create_session_with_uuid on a zero exit:
brace-scan the output, decode it, read the session_id field; each failure
yields the error message of the corresponding source branch. -/
def claude_parse_session_id (jl : JsonLoads) (out : String) : Except String String :=
  match extractJson out with
  | none => .error (("Ошибка: не удалось найти JSON в ответе:\n") ++ pyTake 500 out)
  | some js =>
      match jl js with
      | .error _ => .error (("Ошибка парсинга JSON:\n") ++ pyTake 500 out)
      | .ok d =>
          match dictGetTruthy d (("session_id")) with
          | none => .error ("Ошибка: session_id не найден в ответе Claude CLI")
          | some sid => .ok sid

/-- create_session_with_uuid of routers/claude_cli.py: run claude chat
--output-format json in the container; on exit zero, brace-scan the output,
decode it, read session_id; only when a truthy session_id was parsed is a row
inserted (with uuid = that session_id); every failure path returns an error
message and leaves the database untouched. -/
def claude_create_session_with_uuid (jl : JsonLoads) (o : DockerExecOutcome)
    (db : CLIDB) (u : Nat) (name : String) :
    (Option CLISession × Option String) × CLIDB :=
  match o with
  | .notFound =>
      ((none, some (("Ошибка: контейнер ") ++ sqS ++ ("claude-code-console") ++ sqS ++ (" не найден"))), db)
  | .apiError m => ((none, some (("Ошибка Docker API: ") ++ m)), db)
  | .otherExn m => ((none, some (("Ошибка создания сессии: ") ++ m)), db)
  | .run (_ + 1) out => ((none, some (("Ошибка создания сессии:\n") ++ out)), db)
  | .run 0 out =>
      match claude_parse_session_id jl out with
      | .error e => ((none, some e), db)
      | .ok sid =>
          let s : CLISession := ⟨nextSessionId db, u, name, some sid⟩
          ((some s, none), { db with sessions := db.sessions ++ [s] })

/-- create_session_with_uuid of routers/cursor_cli.py: re-check uniqueness of
(user_id, session_name), then insert a row with uuid = None — the chat id is
assigned lazily by the first query. -/
def cursor_create_session_with_uuid (db : CLIDB) (u : Nat) (name : String) :
    (Option CLISession × Option String) × CLIDB :=
  match findSession db u name with
  | some _ => ((none, some (("Сессия ") ++ sqS ++ name ++ sqS ++ (" уже существует"))), db)
  | none =>
      let s : CLISession := ⟨nextSessionId db, u, name, none⟩
      ((some s, none), { db with sessions := db.sessions ++ [s] })

/- ------------------------------------------------------------------ -/
/- the conversation state machine: aiogram FSM state plus the per-user data
   dict (session_name, session_uuid, current_query, menu_parent_id), and the
   externally visible calls of a handler run, recorded in order as events:
   end_claude_session / end_cursor_session invocations, the docker exec call,
   host command runs, message.answer calls, the activation of a session in the
   state of the user, and menu redraws. -/

/-- the three FSM states of ClaudeCLIState / CursorCLIState. -/
inductive CLIMode
  | waiting_for_session_name
  | waiting_for_query
  | adding_flags
deriving DecidableEq

/-- the FSM state and data dict of a user; mode none is the cleared/unset state. -/
structure FSM where
  mode : Option CLIMode
  session_name : Option String
  session_uuid : Option String
  current_query : String
  menu_parent_id : Option Nat
deriving DecidableEq

/-- state.clear(): unset state, empty data. -/
def FSM.cleared : FSM := ⟨none, none, none, "", none⟩

/-- the externally visible calls of one handler run, in order. -/
inductive Ev
  | endSession (tok : String)
  | activate (name : String)
  | agentRun (cmd : String)
  | hostRun (commandLine : String)
  | answer (text : String)
  | mainMenu
  | menuShown
deriving DecidableEq

/-- is this event an endSession invocation? -/
def Ev.isEnd : Ev → Bool
  | .endSession _ => true
  | _ => false

/-- result of one handler run: the database, the FSM of the user, the ordered
event list. -/
structure Step where
  db : CLIDB
  fsm : FSM
  evs : List Ev
deriving DecidableEq

/-- ondelete=SET NULL applied to one message row of the deleted session. -/
def detachMsg (sid : Nat) (m : CLIMessage) : CLIMessage :=
  if m.session_id == some sid then { m with session_id := none } else m

/-- the names of the sessions of the user (the submenu buttons); ordering by
created_at descending only affects button layout, not membership. -/
def userSessionNames (db : CLIDB) (u : Nat) : List String :=
  (db.sessions.filter (fun s => s.user_id == u)).map (fun s => s.session_name)

/-- the control button labels of the submenu. -/
def NEW_SESSION_BUTTON : String := "New Session"

/-- the back-to-main-menu button label. -/
def BACK_TO_MAIN : String := "◀️ Главное меню"

/-- the query prompt after selecting a session. -/
def msgQueryPrompt (n : String) : String := ("Введите запрос для сессии **") ++ n ++ ("**:")

/-- the follow-up prompt after a query was answered. -/
def msgNextPrompt (n : String) : String :=
  ("Введите следующий запрос для сессии ") ++ n ++ (" или /exit для выхода:")

/-- the deletion confirmation, naming the count of preserved messages. -/
def msgDeleteConfirm (n : String) (cnt : Nat) : String :=
  ("✅ Сессия ") ++ sqS ++ n ++ sqS ++ (" удалена. История сообщений (")
    ++ toString cnt ++ (" сообщений) сохранена.")

/-- the duplicate-name guidance of handle_session_name_input. -/
def msgSessionExists (n : String) : String :=
  ("Сессия ") ++ sqS ++ n ++ sqS ++ (" уже существует. Выберите её из меню или введите другое название:")

/-- error: no session selected. -/
def msgNoSession : String := "Ошибка: сессия не выбрана. Начните заново."

/-- error: no uuid for the session (claude flow). -/
def msgNoUuid : String := "Ошибка: UUID сессии не найден. Создайте сессию заново."

/-- error: session row missing (cursor flow). -/
def msgCursorNoSession : String := "Ошибка: сессия не найдена. Создайте сессию заново."

/-- error of handle_session_button when the row is missing. -/
def msgNotFoundMenu : String := "Сессия не найдена. Выберите сессию из меню."

/-- the invalid-name guidance of handle_session_name_input. -/
def msgNameInvalid : String :=
  "Название сессии должно содержать только английские буквы, цифры, дефисы и подчеркивания. Попробуйте снова:"

/-- the new-session name prompt. -/
def msgNamePrompt : String := "Название новой сессии (на английском без пробелов):"

/-- the usage message of the host command escape. -/
def msgHostUsage : String :=
  "❌ Ошибка: Команда не указана. Используйте: `!host <команда>`\n\nПример: `!host ping -c 4 8.8.8.8`"

/-- the host command announcement. -/
def msgHostAnnounce (hc : String) : String := ("🖥️ Выполняю команду на хосте: `") ++ hc ++ ("`")

/-- the host command success answer. -/
def msgHostOk (out : String) : String := ("✅ Результат:\n```\n") ++ out ++ ("\n```")

/-- the host command failure answer. -/
def msgHostErr (out : String) : String := ("❌ Ошибка выполнения:\n```\n") ++ out ++ ("\n```")

/-- the session header of a successful query answer. -/
def msgSessionHeader (n out : String) : String := ("**Сессия ") ++ n ++ (":**\n\n") ++ out

/-- the 4000-character display ceiling with its visible truncation marker. -/
def truncate4000 (out : String) : String :=
  if 4000 < out.length then pyTake 4000 out ++ ("\n\n... (вывод обрезан, слишком длинный)") else out

/-- delete_current_session (identical logic in both routers): best-effort end
of the live agent call when a token is in the state, then the atomic
detach-then-delete of the session row (messages keep their rows, their session
reference nulled by ondelete=SET NULL), then the menu redraw and the
confirmation naming the count of preserved messages, counted before the
delete.  menuItem is the id of the submenu MenuItem row, restored into the
cleared state when present. -/
def delete_current_session (db : CLIDB) (fsm : FSM) (u : Nat) (menuItem : Option Nat) : Step :=
  match fsm.session_name with
  | none => ⟨db, fsm, [Ev.answer ("Ошибка: текущая сессия не определена.")]⟩
  | some n =>
      let e1 := match fsm.session_uuid with
        | some tok => [Ev.endSession tok]
        | none => []
      match findSession db u n with
      | none =>
          ⟨db, FSM.cleared,
            e1 ++ [Ev.answer (("Сессия ") ++ sqS ++ n ++ sqS ++ (" не найдена.")), Ev.menuShown]⟩
      | some s =>
          let cnt := (db.messages.filter (fun m => m.session_id == some s.id)).length
          let db' : CLIDB :=
            { sessions := db.sessions.filter (fun t => !(t.id == s.id)),
              messages := db.messages.map (detachMsg s.id) }
          let fsm' := match menuItem with
            | some mid => { FSM.cleared with menu_parent_id := some mid }
            | none => FSM.cleared
          ⟨db', fsm', e1 ++ [Ev.menuShown, Ev.answer (msgDeleteConfirm n cnt)]⟩

/-- handle_session_button of routers/claude_cli.py: end the previous session
when a token is in the state, verify the target row exists and has a uuid,
then activate it and enter waiting_for_query. -/
def claude_handle_session_button (db : CLIDB) (fsm : FSM) (u : Nat) (name : String) : Step :=
  let e1 := match fsm.session_uuid with
    | some tok => [Ev.endSession tok]
    | none => []
  match findSession db u name with
  | none => ⟨db, fsm, e1 ++ [Ev.answer msgNotFoundMenu, Ev.menuShown]⟩
  | some s =>
      match s.uuid with
      | none => ⟨db, fsm, e1 ++ [Ev.answer msgNoUuid, Ev.menuShown]⟩
      | some su =>
          ⟨db, { fsm with session_name := some name, session_uuid := some su,
                          mode := some CLIMode.waiting_for_query },
            e1 ++ [Ev.activate name, Ev.answer (msgQueryPrompt name)]⟩

/-- handle_session_button of routers/cursor_cli.py: as for claude but a null
uuid is allowed (it is assigned on the first query). -/
def cursor_handle_session_button (db : CLIDB) (fsm : FSM) (u : Nat) (name : String) : Step :=
  let e1 := match fsm.session_uuid with
    | some tok => [Ev.endSession tok]
    | none => []
  match findSession db u name with
  | none => ⟨db, fsm, e1 ++ [Ev.answer msgNotFoundMenu, Ev.menuShown]⟩
  | some s =>
      ⟨db, { fsm with session_name := some name, session_uuid := s.uuid,
                      mode := some CLIMode.waiting_for_query },
        e1 ++ [Ev.activate name, Ev.answer (msgQueryPrompt name)]⟩

/-- the host command escape markers, in source order. -/
def hostCmdMarkers : List String := ["!host", "#host", "!exec", "#exec"]

/-- does the first list start with the second? (str.startswith). -/
def listStartsWith : List Char → List Char → Bool
  | _, [] => true
  | [], _ :: _ => false
  | a :: as, b :: bs => a = b && listStartsWith as bs

/-- str.startswith on strings. -/
def strStartsWith (t p : String) : Bool := listStartsWith t.data p.data

/-- the first marker the lowered text starts with, if any. -/
def findHostMarker (t : String) : Option String :=
  hostCmdMarkers.find? (fun p => strStartsWith (pyLower t) (pyLower p))

/-- the host command after the marker, stripped (none when no marker). -/
def hostCommandOf (t : String) : Option String :=
  (findHostMarker t).map (fun p => pyStripStr (pyDrop p.length t))

/-- handle_query_input of routers/claude_cli.py, one inbound text while in
waiting_for_query: the special commands and buttons are checked first in
source order, then the host command escape, then the ordinary query path that
executes the agent, records the exchange and re-prompts.  hostRt and o are
the outcomes of the (at most one) host container run and of the (at most one)
agent exec call. -/
def claude_handle_query_input (hostRt : RunOutcome) (o : DockerExecOutcome)
    (db : CLIDB) (fsm : FSM) (u : Nat) (msgText : String) (menuItem : Option Nat) : Step :=
  let text := pyStripStr msgText
  if pyLower text = ("/delete") then delete_current_session db fsm u menuItem
  else if text = ("/exit") then
    let e1 := match fsm.session_uuid with
      | some tok => [Ev.endSession tok]
      | none => []
    ⟨db, FSM.cleared,
      e1 ++ [Ev.answer ("Режим Claude CLI завершён. Используйте /start для возврата в меню."),
             Ev.mainMenu]⟩
  else if text = ("/start") || text = BACK_TO_MAIN then
    let e1 := match fsm.session_uuid with
      | some tok => [Ev.endSession tok]
      | none => []
    ⟨db, FSM.cleared, e1 ++ [Ev.mainMenu]⟩
  else if (userSessionNames db u).contains text then
    claude_handle_session_button db fsm u text
  else if text = NEW_SESSION_BUTTON then
    ⟨db, { fsm with mode := some CLIMode.waiting_for_session_name }, [Ev.answer msgNamePrompt]⟩
  else
    match fsm.session_name with
    | none => ⟨db, FSM.cleared, [Ev.answer msgNoSession]⟩
    | some nm =>
        let resolved : Option FSM :=
          match fsm.session_uuid with
          | some _ => some fsm
          | none =>
              match findSession db u nm with
              | none => none
              | some s =>
                  match s.uuid with
                  | none => none
                  | some su => some { fsm with session_uuid := some su }
        match resolved with
        | none => ⟨db, FSM.cleared, [Ev.answer msgNoUuid]⟩
        | some fsm1 =>
            match hostCommandOf text with
            | some hc =>
                if hc = "" then ⟨db, fsm1, [Ev.answer msgHostUsage]⟩
                else
                  let r := execute_host_command_simple hostRt hc
                  let succ := (r.1).2
                  let outT := if succ then truncate4000 ((r.1).1) else (r.1).1
                  let db2 := match findSession db u nm with
                    | some s => saveMessage db (some s.id) u text (if succ then some outT else none) none
                    | none => db
                  ⟨db2, fsm1,
                    [Ev.answer (msgHostAnnounce hc), Ev.hostRun hc,
                     Ev.answer (if succ then msgHostOk outT else msgHostErr outT)]⟩
            | none =>
                let fsm2 := { fsm1 with current_query := text }
                let pf := parse_flags_from_query text
                match findSession db u nm with
                | none => ⟨db, FSM.cleared, [Ev.answer msgNoUuid]⟩
                | some s =>
                    match s.uuid with
                    | none => ⟨db, FSM.cleared, [Ev.answer msgNoUuid]⟩
                    | some su =>
                        let r := execute_claude_command o
                        let db2 := saveMessage db (some s.id) u pf.1
                          (if r.2 then some r.1 else none) pf.2
                        ⟨db2, { fsm2 with current_query := "" },
                          [Ev.agentRun (claude_base_cmd su pf.1 pf.2),
                           Ev.answer (if r.2 then msgSessionHeader nm (truncate4000 r.1) else r.1),
                           Ev.answer (msgNextPrompt nm)]⟩

/-- handle_query_input of routers/cursor_cli.py: as for claude, but a session
without uuid may still be queried (the exec call creates the remote session),
and a newly returned chat id is persisted into the session row and the state
exactly when the call succeeded, the chat id is truthy and the uuid of the row was
not truthy. -/
def cursor_handle_query_input (jl : JsonLoads) (hostRt : RunOutcome) (o : DockerExecOutcome)
    (db : CLIDB) (fsm : FSM) (u : Nat) (msgText : String) (menuItem : Option Nat) : Step :=
  let text := pyStripStr msgText
  if pyLower text = ("/delete") then delete_current_session db fsm u menuItem
  else if text = ("/exit") then
    let e1 := match fsm.session_uuid with
      | some tok => [Ev.endSession tok]
      | none => []
    ⟨db, FSM.cleared,
      e1 ++ [Ev.answer ("Режим Cursor CLI завершён. Используйте /start для возврата в меню."),
             Ev.mainMenu]⟩
  else if text = ("/start") || text = BACK_TO_MAIN then
    let e1 := match fsm.session_uuid with
      | some tok => [Ev.endSession tok]
      | none => []
    ⟨db, FSM.cleared, e1 ++ [Ev.mainMenu]⟩
  else if (userSessionNames db u).contains text then
    cursor_handle_session_button db fsm u text
  else if text = NEW_SESSION_BUTTON then
    ⟨db, { fsm with mode := some CLIMode.waiting_for_session_name }, [Ev.answer msgNamePrompt]⟩
  else
    match fsm.session_name with
    | none => ⟨db, FSM.cleared, [Ev.answer msgNoSession]⟩
    | some nm =>
        let resolved : Option FSM :=
          match fsm.session_uuid with
          | some _ => some fsm
          | none =>
              match findSession db u nm with
              | none => none
              | some s =>
                  match s.uuid with
                  | some su => some { fsm with session_uuid := some su }
                  | none => some fsm
        match resolved with
        | none => ⟨db, FSM.cleared, [Ev.answer msgCursorNoSession]⟩
        | some fsm1 =>
            match hostCommandOf text with
            | some hc =>
                if hc = "" then ⟨db, fsm1, [Ev.answer msgHostUsage]⟩
                else
                  let r := execute_host_command_simple hostRt hc
                  let succ := (r.1).2
                  let outT := if succ then truncate4000 ((r.1).1) else (r.1).1
                  let db2 := match findSession db u nm with
                    | some s => saveMessage db (some s.id) u text (if succ then some outT else none) none
                    | none => db
                  ⟨db2, fsm1,
                    [Ev.answer (msgHostAnnounce hc), Ev.hostRun hc,
                     Ev.answer (if succ then msgHostOk outT else msgHostErr outT)]⟩
            | none =>
                let fsm2 := { fsm1 with current_query := text }
                let pf := parse_flags_from_query text
                match findSession db u nm with
                | none => ⟨db, FSM.cleared, [Ev.answer msgCursorNoSession]⟩
                | some s =>
                    let r := execute_cursor_command jl o s.uuid
                    let persist := r.2.1 && truthyOpt (r.2.2) && !(truthyOpt s.uuid)
                    let db2 := if persist then
                        { db with
                          sessions := db.sessions.map
                            (fun t => if t.id == s.id then { t with uuid := r.2.2 } else t) }
                      else db
                    let fsm3 := if persist then { fsm2 with session_uuid := r.2.2 } else fsm2
                    let db3 := saveMessage db2 (some s.id) u pf.1
                      (if r.2.1 then some r.1 else none) pf.2
                    ⟨db3, { fsm3 with current_query := "" },
                      [Ev.agentRun (cursor_base_cmd s.uuid pf.1 pf.2),
                       Ev.answer (if r.2.1 then msgSessionHeader nm (truncate4000 r.1) else r.1),
                       Ev.answer (msgNextPrompt nm)]⟩

/-- one character of the restricted session-name set [a-zA-Z0-9_-]. -/
def isNameChar (c : Char) : Bool :=
  (('a' ≤ c && c ≤ 'z') || ('A' ≤ c && c ≤ 'Z') || ('0' ≤ c && c ≤ '9') || c = '_' || c = '-')

/-- the re.match validation of the session name.  (The Python terminal anchor
would also accept a single trailing newline, but the handler validates the
stripped text, which never ends in a newline.) -/
def isValidSessionName (s : String) : Bool := s ≠ "" && s.data.all isNameChar

/-- handle_session_name_input of routers/claude_cli.py: validate the name,
reject a duplicate for this user, then create the session through the agent
(create_session_with_uuid); only a created session with a uuid activates
waiting_for_query. -/
def claude_handle_session_name_input (jl : JsonLoads) (o : DockerExecOutcome)
    (db : CLIDB) (fsm : FSM) (u : Nat) (msgText : String) : Step :=
  let name := pyStripStr msgText
  if !(isValidSessionName name) then ⟨db, fsm, [Ev.answer msgNameInvalid]⟩
  else
    match findSession db u name with
    | some _ => ⟨db, fsm, [Ev.answer (msgSessionExists name)]⟩
    | none =>
        let r := claude_create_session_with_uuid jl o db u name
        match (r.1).2 with
        | some e => ⟨r.2, fsm, [Ev.answer ("Создаю сессию..."), Ev.answer (("❌ ") ++ e)]⟩
        | none =>
            match (r.1).1 with
            | none => ⟨r.2, fsm, [Ev.answer ("Создаю сессию..."),
                Ev.answer ("❌ Ошибка: не удалось получить UUID сессии")]⟩
            | some s =>
                match s.uuid with
                | none => ⟨r.2, fsm, [Ev.answer ("Создаю сессию..."),
                    Ev.answer ("❌ Ошибка: не удалось получить UUID сессии")]⟩
                | some su =>
                    ⟨r.2, { fsm with session_name := some name, session_uuid := some su,
                                     mode := some CLIMode.waiting_for_query },
                      [Ev.answer ("Создаю сессию..."),
                       Ev.answer (("✅ Сессия ") ++ sqS ++ name ++ sqS
                         ++ (" создана.\n\nВведите запрос для сессии ") ++ name ++ (":"))]⟩

/-- handle_session_name_input of routers/cursor_cli.py: validate, reject a
duplicate for this user, create the row without uuid, activate
waiting_for_query (the uuid may still be null). -/
def cursor_handle_session_name_input (db : CLIDB) (fsm : FSM) (u : Nat) (msgText : String) : Step :=
  let name := pyStripStr msgText
  if !(isValidSessionName name) then ⟨db, fsm, [Ev.answer msgNameInvalid]⟩
  else
    match findSession db u name with
    | some _ => ⟨db, fsm, [Ev.answer (msgSessionExists name)]⟩
    | none =>
        let r := cursor_create_session_with_uuid db u name
        match (r.1).2 with
        | some e => ⟨r.2, fsm, [Ev.answer ("Создаю сессию..."), Ev.answer (("❌ ") ++ e)]⟩
        | none =>
            match (r.1).1 with
            | none => ⟨r.2, fsm, [Ev.answer ("Создаю сессию..."),
                Ev.answer ("❌ Ошибка: не удалось создать сессию")]⟩
            | some s =>
                ⟨r.2, { fsm with session_name := some name, session_uuid := s.uuid,
                                 mode := some CLIMode.waiting_for_query },
                  [Ev.answer ("Создаю сессию..."),
                   Ev.answer (("✅ Сессия ") ++ sqS ++ name ++ sqS
                     ++ (" создана.\n\nВведите запрос для сессии ") ++ name ++ (":"))]⟩

/-- the closed set of agent kinds relevant to the session-name claims. -/
inductive AgentKind
  | claudeKind
  | cursorKind
deriving DecidableEq

/-- the two per-kind table pairs of the system (claude_cli_sessions/messages
and cursor_cli_sessions/messages are separate tables in app/models.py). -/
structure BotDB where
  claude : CLIDB
  cursor : CLIDB
deriving DecidableEq

/-- session creation dispatched on the agent kind: the handler of each kind only
consults its own table pair. -/
def handle_session_name_input (k : AgentKind) (jl : JsonLoads) (o : DockerExecOutcome)
    (bdb : BotDB) (fsm : FSM) (u : Nat) (msgText : String) : BotDB × FSM × List Ev :=
  match k with
  | .claudeKind =>
      let st := claude_handle_session_name_input jl o bdb.claude fsm u msgText
      ({ bdb with claude := st.db }, st.fsm, st.evs)
  | .cursorKind =>
      let st := cursor_handle_session_name_input bdb.cursor fsm u msgText
      ({ bdb with cursor := st.db }, st.fsm, st.evs)

/-- the number of session rows named (u, n) across both kinds. -/
def sessionRowCount (bdb : BotDB) (u : Nat) (n : String) : Nat :=
  (bdb.claude.sessions.filter (fun s => s.user_id == u && s.session_name == n)).length
    + (bdb.cursor.sessions.filter (fun s => s.user_id == u && s.session_name == n)).length

/- ------------------------------------------------------------------ -/
/- theorems for the host command gateway -/

/-- C1: for every command line whose leading token is not in the allow-list
(and for the empty command line), execute_host_command_simple returns
success=false with one of the two rejection messages and performs no runtime
effect: no Docker client is created and no container is run. -/
theorem host_gateway_rejects_disallowed (rt : RunOutcome) (s : String)
    (h : rejectable s = true) :
    (execute_host_command_simple rt s).1.2 = false
    ∧ (execute_host_command_simple rt s).2 = []
    ∧ ((execute_host_command_simple rt s).1.1 = ("Error: Empty command")
        ∨ ∃ t, (execute_host_command_simple rt s).1.1 = notAllowedMsg t) := by
  unfold rejectable at h
  unfold execute_host_command_simple
  match hsp : shlexSplit s with
  | .error e => rw [hsp] at h; exact absurd h (by simp)
  | .ok [] => exact ⟨rfl, rfl, Or.inl rfl⟩
  | .ok (t :: rest) =>
      rw [hsp] at h
      simp only [Bool.not_eq_true'] at h
      have h' : t ∉ ALLOWED_HOST_COMMANDS := by simpa using h
      refine ⟨?_, ?_, Or.inr ⟨t, ?_⟩⟩ <;> simp [execute_host_command, h']

/-- C1 witness: the scenario command line with leading token rm, which is not
in the allow-list, is rejected without any runtime effect. -/
theorem host_gateway_rejects_disallowed_witness :
    (execute_host_command_simple (RunOutcome.ok ("")) ("rm -rf /")).1.2 = false
    ∧ (execute_host_command_simple (RunOutcome.ok ("")) ("rm -rf /")).2 = []
    ∧ ((execute_host_command_simple (RunOutcome.ok ("")) ("rm -rf /")).1.1
          = ("Error: Empty command")
        ∨ ∃ t, (execute_host_command_simple (RunOutcome.ok ("")) ("rm -rf /")).1.1
          = notAllowedMsg t) :=
  host_gateway_rejects_disallowed (RunOutcome.ok ("")) ("rm -rf /") (by decide)

/-- C9: execute_host_command_simple is total over arbitrary command lines: a
command line on which tokenization raises (unbalanced quote, trailing escape)
is caught and mapped to an (error message, success=false) pair with no runtime
effect; every other command line is either the rejected empty command or is
delegated whole to execute_host_command.  No input escapes these three shapes. -/
theorem execute_host_command_simple_total (rt : RunOutcome) (s : String) :
    (∃ e, shlexSplit s = .error e
        ∧ execute_host_command_simple rt s = ((("Error parsing command: ") ++ e, false), []))
    ∨ (shlexSplit s = .ok []
        ∧ execute_host_command_simple rt s = ((("Error: Empty command"), false), []))
    ∨ (∃ t rest, shlexSplit s = .ok (t :: rest)
        ∧ execute_host_command_simple rt s = execute_host_command rt t rest true 30) := by
  unfold execute_host_command_simple
  match hsp : shlexSplit s with
  | .error e => exact Or.inl ⟨e, rfl, rfl⟩
  | .ok [] => exact Or.inr (Or.inl ⟨rfl, rfl⟩)
  | .ok (t :: rest) => exact Or.inr (Or.inr ⟨t, rest, rfl, rfl⟩)

/- ------------------------------------------------------------------ -/
/- lemmas and theorems for the flag parser -/

theorem markerAt_false_short (l r : List Char) (h : l.length ≤ 5) :
    markerAt (l ++ ' ' :: r) = false := by
  have htake : (l ++ ' ' :: r).take 6 = l ++ ' ' :: r.take (5 - l.length) := by
    rw [List.take_append_eq_append_take, List.take_of_length_le (by omega : l.length ≤ 6)]
    congr 1
    have h6 : 6 - l.length = (5 - l.length) + 1 := by omega
    rw [h6]
    rfl
  by_contra hb
  rw [Bool.not_eq_false] at hb
  unfold markerAt at hb
  rw [htake] at hb
  have heq : (l ++ ' ' :: r.take (5 - l.length)).map Char.toLower = flagsMarker :=
    beq_iff_eq.mp hb
  have hmem : (' ' : Char) ∈ flagsMarker := by
    rw [← heq]
    exact List.mem_map.mpr ⟨' ', List.mem_append_right _ (List.mem_cons_self _ _), by decide⟩
  exact absurd hmem (by decide)

theorem markerAt_append_long (l r : List Char) (h6 : 6 ≤ l.length) :
    markerAt (l ++ r) = markerAt l := by
  unfold markerAt
  rw [List.take_append_of_le_length h6]

theorem splitAtMarker_none_cons (c : Char) (cs : List Char)
    (h : splitAtMarker (c :: cs) = none) :
    markerAt (c :: cs) = false ∧ splitAtMarker cs = none := by
  by_cases hm : markerAt (c :: cs) = true
  · simp [splitAtMarker, hm] at h
  · refine ⟨by simpa using hm, ?_⟩
    simp only [splitAtMarker, hm, if_false] at h
    match hs : splitAtMarker cs with
    | some (pre, post) => rw [hs] at h; simp at h
    | none => rfl

theorem splitAtMarker_round (q f : List Char) (hq : splitAtMarker q = none) :
    splitAtMarker (q ++ (' ' :: (flagsMarker ++ (' ' :: f)))) = some (q ++ [' '], ' ' :: f) := by
  induction q with
  | nil => rfl
  | cons c cs ih =>
      obtain ⟨hm, hcs⟩ := splitAtMarker_none_cons c cs hq
      have hmA : markerAt (c :: cs ++ (' ' :: (flagsMarker ++ (' ' :: f)))) = false := by
        rcases Nat.lt_or_ge (c :: cs).length 6 with hlen | hlen
        · exact markerAt_false_short (c :: cs) _ (by omega)
        · rw [markerAt_append_long (c :: cs) _ hlen]; exact hm
      rw [List.cons_append]
      rw [List.cons_append] at hmA
      simp only [splitAtMarker, hmA, if_false, Bool.false_eq_true]
      rw [ih hcs]
      rfl

theorem dropWhile_append_single (p : Char → Bool) (l : List Char) (c : Char) (hc : p c = true) :
    (l ++ [c]).dropWhile p
      = if (l.dropWhile p).isEmpty then [] else l.dropWhile p ++ [c] := by
  induction l with
  | nil => simp [List.dropWhile, hc]
  | cons a l ih =>
      by_cases ha : p a = true
      · simpa [List.dropWhile, ha] using ih
      · simp [List.dropWhile, ha]

theorem pyStrip_append_space (q : List Char) : pyStrip (q ++ [' ']) = pyStrip q := by
  unfold pyStrip pyStripR
  rw [List.reverse_append]
  simp [List.dropWhile, show isPySpace ' ' = true from rfl]

theorem pyStrip_cons_space (f : List Char) : pyStrip (' ' :: f) = pyStrip f := by
  unfold pyStrip pyStripR
  rw [show (' ' :: f).reverse = f.reverse ++ [' '] by simp]
  rw [dropWhile_append_single _ _ _ (by decide)]
  by_cases he : (f.reverse.dropWhile isPySpace).isEmpty
  · have hnil : f.reverse.dropWhile isPySpace = [] := by simpa [List.isEmpty_iff] using he
    simp [he, hnil]
  · rw [if_neg he, List.reverse_append]
    simp [List.dropWhile, show isPySpace ' ' = true from rfl]

/-- C6 counterexample: the claim states that with no marker occurrence
parse(q) = (trim(q), null); on the input consisting of a space followed by
letters the code returns the raw query untrimmed, so the claimed equation
fails. -/
theorem parse_flags_no_marker_counterexample :
    parse_flags_from_query ((" hi")) ≠ (pyStripStr ((" hi")), none) := by decide

/-- C6 (amended): parse_flags_from_query is a pure total function; for every
q and f with no marker occurrence, parse(q ++ " #flags " ++ f) =
(trim(q), trim(f)) with the flags component none when trim(f) is empty, the
split happening at the first case-insensitive occurrence of the marker; for
every q with no marker occurrence parse(q) = (q, none) — the raw query is
returned unchanged, not trimmed. -/
theorem parse_flags_round_trip (q f : String)
    (hq : splitAtMarker q.data = none) (hf : splitAtMarker f.data = none) :
    parse_flags_from_query (q ++ (" #flags ") ++ f)
        = (pyStripStr q, if pyStripStr f = ("") then none else some (pyStripStr f))
    ∧ parse_flags_from_query q = (q, none) := by
  constructor
  · have hsep : (" #flags " : String).data = ' ' :: (flagsMarker ++ [' ']) := by decide
    have hdata : (q ++ (" #flags ") ++ f).data
        = q.data ++ (' ' :: (flagsMarker ++ (' ' :: f.data))) := by
      rw [String.data_append, String.data_append, hsep]
      simp [List.append_assoc]
    unfold parse_flags_from_query
    rw [hdata, splitAtMarker_round q.data f.data hq]
    simp only [pyStrip_append_space, pyStrip_cons_space]
    by_cases hc : pyStrip f.data = []
    · simp [pyStripStr, hc, String.ext_iff]
    · simp [pyStripStr, hc, String.ext_iff]
  · unfold parse_flags_from_query
    rw [hq]

/-- C6 witness: the round trip and the no-marker clause evaluated at a
concrete query and flag string. -/
theorem parse_flags_round_trip_witness :
    (parse_flags_from_query ((("what time is it") ++ (" #flags ") ++ ("-v")))
        = (pyStripStr (("what time is it")),
           if pyStripStr (("-v")) = ("") then none else some (pyStripStr (("-v")))))
    ∧ parse_flags_from_query (("what time is it")) = ((("what time is it")), none) :=
  parse_flags_round_trip (("what time is it")) (("-v")) (by decide) (by decide)

/- ------------------------------------------------------------------ -/
/- theorems for the agent exec wrappers and session creation -/

theorem pyTake_le (n : Nat) (s : String) : (pyTake n s).length ≤ n := by
  have h : (pyTake n s).length = min n s.data.length := by
    show (s.data.take n).length = _
    exact List.length_take _ _
  omega

/-- C7 counterexample: for the claude kind a non-zero exit returns the full
error output with no truncation: at an exec result of exit code 1 whose output
has 1001 characters, the error excerpt carried in the returned text has
1001 > 1000 characters, refuting the claimed 1000-character bound for every
agent kind. -/
theorem claude_error_excerpt_unbounded :
    execute_claude_command (DockerExecOutcome.run 1 (String.mk (List.replicate 1001 ('a'))))
        = (("Ошибка выполнения команды:\n") ++ String.mk (List.replicate 1001 ('a')), false)
    ∧ 1000 < (String.mk (List.replicate 1001 ('a'))).length := by
  refine ⟨rfl, ?_⟩
  have h : (String.mk (List.replicate 1001 ('a'))).length = 1001 := by
    show (List.replicate 1001 ('a')).length = 1001
    rw [List.length_replicate]
  omega

/-- C7 (amended): both wrappers are total over every exec outcome and report
success only for a zero exit, so ordinary failures (non-zero exit, missing
container, API error, other exception) always surface as success=false rather
than an exception; on a non-zero exit the cursor wrapper carries an error
excerpt truncated to at most 1000 characters, while the claude wrapper carries
the full, unbounded error output. -/
theorem agent_failure_semantics (jl : JsonLoads) (su : Option String)
    (ec : Nat) (err : String) (h : ec ≠ 0) :
    execute_claude_command (DockerExecOutcome.run ec err)
        = (("Ошибка выполнения команды:\n") ++ err, false)
    ∧ (∃ ex, execute_cursor_command jl (DockerExecOutcome.run ec err) su
          = (("Ошибка выполнения команды (код ") ++ toString ec ++ ("):\n") ++ ex, false, none)
        ∧ ex.length ≤ 1000)
    ∧ (∀ o, (execute_claude_command o).2 = true → ∃ out, o = DockerExecOutcome.run 0 out)
    ∧ (∀ o, (execute_cursor_command jl o su).2.1 = true
        → ∃ out, o = DockerExecOutcome.run 0 out) := by
  obtain ⟨k, rfl⟩ : ∃ k, ec = k + 1 := ⟨ec - 1, by omega⟩
  refine ⟨rfl,
    ⟨pyTake 1000 (if err = "" then ("Команда завершилась с ошибкой без вывода") else err),
      rfl, pyTake_le _ _⟩, ?_, ?_⟩
  · intro o ho
    match o with
    | DockerExecOutcome.run 0 out => exact ⟨out, rfl⟩
    | DockerExecOutcome.run (m + 1) out => exact Bool.noConfusion ho
    | DockerExecOutcome.notFound => exact Bool.noConfusion ho
    | DockerExecOutcome.apiError m => exact Bool.noConfusion ho
    | DockerExecOutcome.otherExn m => exact Bool.noConfusion ho
  · intro o ho
    match o with
    | DockerExecOutcome.run 0 out => exact ⟨out, rfl⟩
    | DockerExecOutcome.run (m + 1) out => exact Bool.noConfusion ho
    | DockerExecOutcome.notFound => exact Bool.noConfusion ho
    | DockerExecOutcome.apiError m => exact Bool.noConfusion ho
    | DockerExecOutcome.otherExn m => exact Bool.noConfusion ho

/-- C7 witness: the failure semantics evaluated at exit code 2 with a concrete
error output and a decoder that always fails. -/
theorem agent_failure_semantics_witness :
    execute_claude_command (DockerExecOutcome.run 2 ("boom"))
        = (("Ошибка выполнения команды:\n") ++ ("boom"), false)
    ∧ (∃ ex, execute_cursor_command (fun _ => Except.error ()) (DockerExecOutcome.run 2 ("boom")) none
          = (("Ошибка выполнения команды (код ") ++ toString 2 ++ ("):\n") ++ ex, false, none)
        ∧ ex.length ≤ 1000)
    ∧ (∀ o, (execute_claude_command o).2 = true → ∃ out, o = DockerExecOutcome.run 0 out)
    ∧ (∀ o, (execute_cursor_command (fun _ => Except.error ()) o none).2.1 = true
        → ∃ out, o = DockerExecOutcome.run 0 out) :=
  agent_failure_semantics (fun _ => Except.error ()) none 2 ("boom") (by decide)

theorem dictGetTruthy_ne (d : List (String × String)) (k v : String)
    (h : dictGetTruthy d k = some v) : v ≠ "" := by
  unfold dictGetTruthy at h
  match hl : d.lookup k with
  | none => rw [hl] at h; exact absurd h (by simp)
  | some w =>
      rw [hl] at h
      by_cases hw : w = ""
      · simp [hw] at h
      · simp [hw] at h
        rw [← h]
        exact hw

theorem claude_parse_session_id_ne (jl : JsonLoads) (out sid : String)
    (h : claude_parse_session_id jl out = .ok sid) : sid ≠ "" := by
  unfold claude_parse_session_id at h
  split at h
  · exact absurd h (by simp)
  · split at h
    · exact absurd h (by simp)
    · split at h
      · exact absurd h (by simp)
      · rename_i d hsome sid' hd
        have hne := dictGetTruthy_ne _ _ _ hd
        have hs := Except.ok.inj h
        rw [← hs]
        exact hne

/-- C10: for the claude kind a session row is only ever persisted with a
non-null resume token: for every decoder, exec outcome and database,
claude_create_session_with_uuid either returns a created session whose uuid is
a truthy parsed session_id and appends exactly that row, or returns an error
with the database unchanged — so the database write happens strictly after a
zero exit with a parsed, truthy session_id. -/
theorem claude_session_created_with_uuid (jl : JsonLoads) (o : DockerExecOutcome)
    (db : CLIDB) (u : Nat) (name : String) :
    (∃ s t, (claude_create_session_with_uuid jl o db u name).1.1 = some s
        ∧ s.uuid = some t ∧ t ≠ ""
        ∧ (claude_create_session_with_uuid jl o db u name).2
            = { db with sessions := db.sessions ++ [s] }
        ∧ (claude_create_session_with_uuid jl o db u name).1.2 = none)
    ∨ ((claude_create_session_with_uuid jl o db u name).1.1 = none
        ∧ (claude_create_session_with_uuid jl o db u name).2 = db
        ∧ (claude_create_session_with_uuid jl o db u name).1.2.isSome = true) := by
  match o with
  | DockerExecOutcome.notFound => right; exact ⟨rfl, rfl, rfl⟩
  | DockerExecOutcome.apiError m => right; exact ⟨rfl, rfl, rfl⟩
  | DockerExecOutcome.otherExn m => right; exact ⟨rfl, rfl, rfl⟩
  | DockerExecOutcome.run (n + 1) out => right; exact ⟨rfl, rfl, rfl⟩
  | DockerExecOutcome.run 0 out =>
      simp only [claude_create_session_with_uuid]
      match hp : claude_parse_session_id jl out with
      | Except.error e => right; exact ⟨rfl, rfl, rfl⟩
      | Except.ok sid =>
          left
          exact ⟨⟨nextSessionId db, u, name, some sid⟩, sid, rfl, rfl,
            claude_parse_session_id_ne jl out sid hp, rfl, rfl⟩

/- ------------------------------------------------------------------ -/
/- theorems for the session registry and the state machine handlers -/

theorem countNull_detach (ms : List CLIMessage) (sid : Nat) :
    ((ms.map (detachMsg sid)).filter (fun m => m.session_id == none)).length
      = (ms.filter (fun m => m.session_id == none)).length
        + (ms.filter (fun m => m.session_id == some sid)).length := by
  induction ms with
  | nil => rfl
  | cons m ms ih =>
      by_cases hm : m.session_id = some sid
      · simp [detachMsg, hm, List.filter_cons, ih]
        omega
      · by_cases hn : m.session_id = none
        · simp [detachMsg, hm, hn, List.filter_cons, ih]
          omega
        · simp [detachMsg, hm, hn, List.filter_cons, ih]

/-- C2: deleting a session with n referencing exchanges, in one step, nulls
the session reference of exactly those n exchange rows, deletes no exchange
row (the row count is unchanged), removes only the session row, adds exactly n
to the count of detached (session=null) exchanges, and answers a confirmation
naming exactly n preserved exchanges. -/
theorem delete_session_preserves_exchanges
    (db : CLIDB) (fsm : FSM) (u : Nat) (mi : Option Nat) (n : String) (s : CLISession)
    (hn : fsm.session_name = some n)
    (hf : findSession db u n = some s) :
    (delete_current_session db fsm u mi).db.messages = db.messages.map (detachMsg s.id)
    ∧ (delete_current_session db fsm u mi).db.messages.length = db.messages.length
    ∧ (delete_current_session db fsm u mi).db.sessions
        = db.sessions.filter (fun t => !(t.id == s.id))
    ∧ ((delete_current_session db fsm u mi).db.messages.filter
          (fun m => m.session_id == none)).length
        = (db.messages.filter (fun m => m.session_id == none)).length
          + (db.messages.filter (fun m => m.session_id == some s.id)).length
    ∧ Ev.answer (msgDeleteConfirm n
          ((db.messages.filter (fun m => m.session_id == some s.id)).length))
        ∈ (delete_current_session db fsm u mi).evs := by
  have h4 := countNull_detach db.messages s.id
  simp [delete_current_session, hn, hf, List.mem_append, h4]

/-- C2 witness: the deletion evaluated on a database with one session owning
one exchange and one already-detached exchange. -/
theorem delete_session_preserves_exchanges_witness :
    (let dbW : CLIDB :=
      ⟨[⟨1, 7, ("work"), some ("abc")⟩],
       [⟨some 1, 7, ("q1"), some ("r1"), none⟩, ⟨none, 7, ("q0"), none, none⟩]⟩
     let fsmW : FSM := ⟨some CLIMode.waiting_for_query, some ("work"), some ("abc"), "", none⟩
     (delete_current_session dbW fsmW 7 none).db.messages
        = dbW.messages.map (detachMsg 1)
     ∧ (delete_current_session dbW fsmW 7 none).db.messages.length = dbW.messages.length
     ∧ (delete_current_session dbW fsmW 7 none).db.sessions
        = dbW.sessions.filter (fun t => !(t.id == 1))
     ∧ ((delete_current_session dbW fsmW 7 none).db.messages.filter
          (fun m => m.session_id == none)).length
        = (dbW.messages.filter (fun m => m.session_id == none)).length
          + (dbW.messages.filter (fun m => m.session_id == some 1)).length
     ∧ Ev.answer (msgDeleteConfirm ("work")
          ((dbW.messages.filter (fun m => m.session_id == some 1)).length))
        ∈ (delete_current_session dbW fsmW 7 none).evs) :=
  delete_session_preserves_exchanges _ _ 7 none ("work") ⟨1, 7, ("work"), some ("abc")⟩
    (by rfl) (by rfl)

/-- C4: when a user in waiting_for_query selects an existing session by name
while the previous active session has a token, the handle_session_button of both routers
issue exactly one endSession call, for that token, strictly before the new
session is activated, and leave the user in waiting_for_query with the new
session active (for the claude kind the target row carries a uuid, as all
claude rows do). -/
theorem switch_session_ends_previous_first
    (db : CLIDB) (fsm : FSM) (u : Nat) (name tok su : String) (s : CLISession)
    (hmode : fsm.mode = some CLIMode.waiting_for_query)
    (htok : fsm.session_uuid = some tok)
    (hs : findSession db u name = some s) :
    (s.uuid = some su →
      (claude_handle_session_button db fsm u name).evs
          = [Ev.endSession tok, Ev.activate name, Ev.answer (msgQueryPrompt name)]
      ∧ ((claude_handle_session_button db fsm u name).evs.filter Ev.isEnd).length = 1
      ∧ (claude_handle_session_button db fsm u name).fsm.mode = some CLIMode.waiting_for_query
      ∧ (claude_handle_session_button db fsm u name).fsm.session_name = some name)
    ∧ ((cursor_handle_session_button db fsm u name).evs
          = [Ev.endSession tok, Ev.activate name, Ev.answer (msgQueryPrompt name)]
      ∧ ((cursor_handle_session_button db fsm u name).evs.filter Ev.isEnd).length = 1
      ∧ (cursor_handle_session_button db fsm u name).fsm.mode = some CLIMode.waiting_for_query
      ∧ (cursor_handle_session_button db fsm u name).fsm.session_name = some name) := by
  constructor
  · intro hsu
    simp [claude_handle_session_button, htok, hs, hsu, Ev.isEnd]
  · simp [cursor_handle_session_button, htok, hs, Ev.isEnd]

/-- C4 witness: the switch evaluated on a database with two sessions, from the
active one to the other. -/
theorem switch_session_ends_previous_first_witness :
    (let dbW : CLIDB :=
      ⟨[⟨1, 7, ("alpha"), some ("tok-a")⟩, ⟨2, 7, ("beta"), some ("tok-b")⟩], []⟩
     let fsmW : FSM := ⟨some CLIMode.waiting_for_query, some ("alpha"), some ("tok-a"), "", none⟩
     ((claude_handle_session_button dbW fsmW 7 ("beta")).evs
          = [Ev.endSession ("tok-a"), Ev.activate ("beta"), Ev.answer (msgQueryPrompt ("beta"))]
      ∧ ((claude_handle_session_button dbW fsmW 7 ("beta")).evs.filter Ev.isEnd).length = 1
      ∧ (claude_handle_session_button dbW fsmW 7 ("beta")).fsm.mode
          = some CLIMode.waiting_for_query
      ∧ (claude_handle_session_button dbW fsmW 7 ("beta")).fsm.session_name = some ("beta"))
     ∧ ((cursor_handle_session_button dbW fsmW 7 ("beta")).evs
          = [Ev.endSession ("tok-a"), Ev.activate ("beta"), Ev.answer (msgQueryPrompt ("beta"))]
      ∧ ((cursor_handle_session_button dbW fsmW 7 ("beta")).evs.filter Ev.isEnd).length = 1
      ∧ (cursor_handle_session_button dbW fsmW 7 ("beta")).fsm.mode
          = some CLIMode.waiting_for_query
      ∧ (cursor_handle_session_button dbW fsmW 7 ("beta")).fsm.session_name = some ("beta"))) :=
  ⟨(switch_session_ends_previous_first _ _ 7 ("beta") ("tok-a") ("tok-b")
      ⟨2, 7, ("beta"), some ("tok-b")⟩ (by rfl) (by rfl) (by rfl)).1 (by rfl),
   (switch_session_ends_previous_first _ _ 7 ("beta") ("tok-a") ("tok-b")
      ⟨2, 7, ("beta"), some ("tok-b")⟩ (by rfl) (by rfl) (by rfl)).2⟩

/-- C8: when the agent call of an ordinary query fails, handle_query_input of
routers/claude_cli.py still records the exchange — one message row appended
carrying the cleaned query and the parsed flags with a null response — and
does not reset the conversation: the user stays in waiting_for_query with the
same active session, so the query can be retried.  (The guards state that the
text is an ordinary query: not a control command, session button or host
escape.) -/
theorem failed_query_records_exchange
    (hostRt : RunOutcome) (o : DockerExecOutcome) (db : CLIDB) (fsm : FSM)
    (u : Nat) (mi : Option Nat) (msgText nm uu su : String) (s : CLISession)
    (hmode : fsm.mode = some CLIMode.waiting_for_query)
    (hname : fsm.session_name = some nm)
    (huuid : fsm.session_uuid = some uu)
    (h1 : pyLower (pyStripStr msgText) ≠ ("/delete"))
    (h2 : pyStripStr msgText ≠ ("/exit"))
    (h3 : pyStripStr msgText ≠ ("/start"))
    (h4 : pyStripStr msgText ≠ BACK_TO_MAIN)
    (h5 : (userSessionNames db u).contains (pyStripStr msgText) = false)
    (h6 : pyStripStr msgText ≠ NEW_SESSION_BUTTON)
    (h7 : hostCommandOf (pyStripStr msgText) = none)
    (hs : findSession db u nm = some s)
    (hsu : s.uuid = some su)
    (ho : (execute_claude_command o).2 = false) :
    (claude_handle_query_input hostRt o db fsm u msgText mi).db.messages
        = db.messages
          ++ [⟨some s.id, u, (parse_flags_from_query (pyStripStr msgText)).1, none,
               (parse_flags_from_query (pyStripStr msgText)).2⟩]
    ∧ (claude_handle_query_input hostRt o db fsm u msgText mi).fsm.mode
        = some CLIMode.waiting_for_query
    ∧ (claude_handle_query_input hostRt o db fsm u msgText mi).fsm.session_name = some nm := by
  have h5' : pyStripStr msgText ∉ userSessionNames db u := by simpa using h5
  simp [claude_handle_query_input, saveMessage, hmode, hname, huuid, h1, h2, h3, h4, h5', h6, h7,
    hs, hsu, ho]

/-- C8 witness: a failed agent call on a concrete query, database and state. -/
theorem failed_query_records_exchange_witness :
    (let dbW : CLIDB := ⟨[⟨1, 7, ("work"), some ("abc")⟩], []⟩
     let fsmW : FSM := ⟨some CLIMode.waiting_for_query, some ("work"), some ("abc"), "", none⟩
     let oW := DockerExecOutcome.run 1 ("boom")
     (claude_handle_query_input (RunOutcome.ok ("")) oW dbW fsmW 7 ("hello") none).db.messages
        = dbW.messages
          ++ [⟨some 1, 7, (parse_flags_from_query (pyStripStr ("hello"))).1, none,
               (parse_flags_from_query (pyStripStr ("hello"))).2⟩]
     ∧ (claude_handle_query_input (RunOutcome.ok ("")) oW dbW fsmW 7 ("hello") none).fsm.mode
        = some CLIMode.waiting_for_query
     ∧ (claude_handle_query_input (RunOutcome.ok ("")) oW dbW fsmW 7 ("hello") none).fsm.session_name
        = some ("work")) :=
  failed_query_records_exchange (RunOutcome.ok ("")) (DockerExecOutcome.run 1 ("boom"))
    ⟨[⟨1, 7, ("work"), some ("abc")⟩], []⟩
    ⟨some CLIMode.waiting_for_query, some ("work"), some ("abc"), "", none⟩
    7 none ("hello") ("work") ("abc") ("abc") ⟨1, 7, ("work"), some ("abc")⟩
    (by rfl) (by rfl) (by rfl) (by decide) (by decide) (by decide) (by decide)
    (by decide) (by decide) (by decide) (by rfl) (by rfl) (by rfl)

/-- C5: in the ordinary query path of the cursor router, a session whose resume
token is null gets the newly assigned token of a successful call persisted
into its registry row and into the per-user state; and a session whose token
is already set (a truthy token, the only kind the code ever stores) is never
overwritten by this path — its registry row survives every outcome unchanged
and the state keeps the old token. -/
theorem cursor_token_persisted_once
    (jl : JsonLoads) (hostRt : RunOutcome) (o : DockerExecOutcome) (db : CLIDB) (fsm : FSM)
    (u : Nat) (mi : Option Nat) (msgText nm : String) (s : CLISession)
    (hmode : fsm.mode = some CLIMode.waiting_for_query)
    (hname : fsm.session_name = some nm)
    (h1 : pyLower (pyStripStr msgText) ≠ ("/delete"))
    (h2 : pyStripStr msgText ≠ ("/exit"))
    (h3 : pyStripStr msgText ≠ ("/start"))
    (h4 : pyStripStr msgText ≠ BACK_TO_MAIN)
    (h5 : (userSessionNames db u).contains (pyStripStr msgText) = false)
    (h6 : pyStripStr msgText ≠ NEW_SESSION_BUTTON)
    (h7 : hostCommandOf (pyStripStr msgText) = none)
    (hs : findSession db u nm = some s) :
    (∀ out t, fsm.session_uuid = none → s.uuid = none
      → execute_cursor_command jl o none = (out, true, some t) → t ≠ ""
      → (∀ r ∈ (cursor_handle_query_input jl hostRt o db fsm u msgText mi).db.sessions,
            r.id = s.id → r.uuid = some t)
        ∧ (cursor_handle_query_input jl hostRt o db fsm u msgText mi).fsm.session_uuid = some t)
    ∧ (∀ tok, fsm.session_uuid = some tok → s.uuid = some tok → tok ≠ ""
      → (cursor_handle_query_input jl hostRt o db fsm u msgText mi).db.sessions = db.sessions
        ∧ (cursor_handle_query_input jl hostRt o db fsm u msgText mi).fsm.session_uuid
            = some tok) := by
  have h5' : pyStripStr msgText ∉ userSessionNames db u := by simpa using h5
  constructor
  · intro out t hfu hsu hex ht
    constructor
    · intro r hr hid
      simp [cursor_handle_query_input, saveMessage, hname, hfu, h1, h2, h3, h4, h5', h6,
        h7, hs, hsu, hex, truthyOpt, ht] at hr
      obtain ⟨t0, ht0, hrt⟩ := hr
      by_cases h0 : t0.id = s.id
      · rw [← hrt]
        simp [h0]
      · rw [← hrt] at hid
        simp [h0] at hid
    · simp [cursor_handle_query_input, saveMessage, hname, hfu, h1, h2, h3, h4, h5', h6,
        h7, hs, hsu, hex, truthyOpt, ht]
  · intro tok hft hst htne
    have htr : truthyOpt (some tok) = true := by simp [truthyOpt, htne]
    constructor
    · simp [cursor_handle_query_input, saveMessage, hname, hft, h1, h2, h3, h4, h5', h6,
        h7, hs, hst, htr]
    · simp [cursor_handle_query_input, saveMessage, hname, hft, h1, h2, h3, h4, h5', h6,
        h7, hs, hst, htr]

/-- C5 witness: the persist scenario (null token, successful call returning
chat id c123) and the no-overwrite scenario (token tk already set), evaluated
on concrete databases and states. -/
theorem cursor_token_persisted_once_witness :
    (let jlW : JsonLoads := fun _ => Except.ok [(("chat_id"), ("c123"))]
     let outW : String := ("hi \x7b\"chat_id\": \"c123\"\x7d")
     let dbW : CLIDB := ⟨[⟨1, 7, ("w"), none⟩], []⟩
     let fsmW : FSM := ⟨some CLIMode.waiting_for_query, some ("w"), none, "", none⟩
     let oW := DockerExecOutcome.run 0 outW
     (∀ r ∈ (cursor_handle_query_input jlW (RunOutcome.ok ("")) oW dbW fsmW 7
              ("hello") none).db.sessions,
         r.id = 1 → r.uuid = some ("c123"))
     ∧ (cursor_handle_query_input jlW (RunOutcome.ok ("")) oW dbW fsmW 7
          ("hello") none).fsm.session_uuid = some ("c123"))
    ∧ (let jlW : JsonLoads := fun _ => Except.ok [(("chat_id"), ("c123"))]
       let outW : String := ("hi \x7b\"chat_id\": \"c123\"\x7d")
       let dbW2 : CLIDB := ⟨[⟨1, 7, ("w"), some ("tk")⟩], []⟩
       let fsmW2 : FSM := ⟨some CLIMode.waiting_for_query, some ("w"), some ("tk"), "", none⟩
       let oW := DockerExecOutcome.run 0 outW
       (cursor_handle_query_input jlW (RunOutcome.ok ("")) oW dbW2 fsmW2 7
           ("hello") none).db.sessions = dbW2.sessions
       ∧ (cursor_handle_query_input jlW (RunOutcome.ok ("")) oW dbW2 fsmW2 7
           ("hello") none).fsm.session_uuid = some ("tk")) :=
  ⟨(cursor_token_persisted_once (fun _ => Except.ok [(("chat_id"), ("c123"))])
      (RunOutcome.ok ("")) (DockerExecOutcome.run 0 ("hi \x7b\"chat_id\": \"c123\"\x7d"))
      ⟨[⟨1, 7, ("w"), none⟩], []⟩
      ⟨some CLIMode.waiting_for_query, some ("w"), none, "", none⟩
      7 none ("hello") ("w") ⟨1, 7, ("w"), none⟩
      (by rfl) (by rfl) (by decide) (by decide) (by decide) (by decide) (by decide)
      (by decide) (by decide) (by rfl)).1
      ("hi \x7b\"chat_id\": \"c123\"\x7d") ("c123") (by rfl) (by rfl) (by rfl) (by decide),
   (cursor_token_persisted_once (fun _ => Except.ok [(("chat_id"), ("c123"))])
      (RunOutcome.ok ("")) (DockerExecOutcome.run 0 ("hi \x7b\"chat_id\": \"c123\"\x7d"))
      ⟨[⟨1, 7, ("w"), some ("tk")⟩], []⟩
      ⟨some CLIMode.waiting_for_query, some ("w"), some ("tk"), "", none⟩
      7 none ("hello") ("w") ⟨1, 7, ("w"), some ("tk")⟩
      (by rfl) (by rfl) (by decide) (by decide) (by decide) (by decide) (by decide)
      (by decide) (by decide) (by rfl)).2
      ("tk") (by rfl) (by rfl) (by decide)⟩

/-- C3 counterexample: the agent kinds store their sessions in separate
tables, so after a claude-kind session (user 1, name foo) is created, the
cursor-kind creation of (1, foo) succeeds — it enters waiting_for_query,
answers no duplicate-name guidance, and a second session row named (1, foo)
now exists in the system — refuting the claim that the second creation fails
regardless of the kind. -/
theorem create_cross_kind_counterexample :
    (let jl0 : JsonLoads := fun _ => Except.ok [(("session_id"), ("abc123"))]
     let o0 := DockerExecOutcome.run 0 ("\x7b\x7d")
     let fsm0 : FSM := ⟨some CLIMode.waiting_for_session_name, none, none, "", none⟩
     let bdb0 : BotDB := ⟨⟨[], []⟩, ⟨[], []⟩⟩
     let r1 := handle_session_name_input AgentKind.claudeKind jl0 o0 bdb0 fsm0 1 ("foo")
     let r2 := handle_session_name_input AgentKind.cursorKind jl0 o0 r1.1 fsm0 1 ("foo")
     sessionRowCount r1.1 1 ("foo") = 1
     ∧ (r1.2).1.mode = some CLIMode.waiting_for_query
     ∧ sessionRowCount r2.1 1 ("foo") = 2
     ∧ (r2.2).1.mode = some CLIMode.waiting_for_query
     ∧ (r2.2).2 ≠ [Ev.answer (msgSessionExists ("foo"))]) := by
  decide

/-- C3 (amended): within one agent kind, after a session (u, n) exists, a
second creation of (u, n) through the handle_session_name_input of that kind fails
with the duplicate-name guidance, leaving the databases of both kinds and the
state of the user unchanged — no second row of that kind is created.  Across
different kinds the names do not collide (see the counterexample). -/
theorem create_duplicate_same_kind_fails
    (k : AgentKind) (jl : JsonLoads) (o : DockerExecOutcome) (bdb : BotDB) (fsm : FSM)
    (u : Nat) (n msgText : String) (s : CLISession)
    (hstrip : pyStripStr msgText = n)
    (hvalid : isValidSessionName n = true)
    (hex : (match k with
            | AgentKind.claudeKind => findSession bdb.claude u n
            | AgentKind.cursorKind => findSession bdb.cursor u n) = some s) :
    (handle_session_name_input k jl o bdb fsm u msgText).1 = bdb
    ∧ (handle_session_name_input k jl o bdb fsm u msgText).2.1 = fsm
    ∧ (handle_session_name_input k jl o bdb fsm u msgText).2.2
        = [Ev.answer (msgSessionExists n)] := by
  match k with
  | AgentKind.claudeKind =>
      have hex' : findSession bdb.claude u n = some s := hex
      simp [handle_session_name_input, claude_handle_session_name_input, hstrip, hvalid, hex']
  | AgentKind.cursorKind =>
      have hex' : findSession bdb.cursor u n = some s := hex
      simp [handle_session_name_input, cursor_handle_session_name_input, hstrip, hvalid, hex']

/-- C3 witness: the duplicate rejection evaluated for the claude kind on a
database already holding (7, work). -/
theorem create_duplicate_same_kind_fails_witness :
    (let bdbW : BotDB := ⟨⟨[⟨1, 7, ("work"), some ("abc")⟩], []⟩, ⟨[], []⟩⟩
     let fsmW : FSM := ⟨some CLIMode.waiting_for_session_name, none, none, "", none⟩
     let jlW : JsonLoads := fun _ => Except.error ()
     (handle_session_name_input AgentKind.claudeKind jlW DockerExecOutcome.notFound
         bdbW fsmW 7 ("work")).1 = bdbW
     ∧ (handle_session_name_input AgentKind.claudeKind jlW DockerExecOutcome.notFound
         bdbW fsmW 7 ("work")).2.1 = fsmW
     ∧ (handle_session_name_input AgentKind.claudeKind jlW DockerExecOutcome.notFound
         bdbW fsmW 7 ("work")).2.2 = [Ev.answer (msgSessionExists ("work"))]) :=
  create_duplicate_same_kind_fails AgentKind.claudeKind (fun _ => Except.error ())
    DockerExecOutcome.notFound ⟨⟨[⟨1, 7, ("work"), some ("abc")⟩], []⟩, ⟨[], []⟩⟩
    ⟨some CLIMode.waiting_for_session_name, none, none, "", none⟩
    7 ("work") ("work") ⟨1, 7, ("work"), some ("abc")⟩
    (by decide) (by decide) (by rfl)
